import Mathlib

/-!
Verification development for the ASR-Whisper repository.

The single source file `src/Whisper.py` defines one request handler,
`transcribe_audio`, around a preloaded speech-recognition model.  We embed
the handler shallowly: the wall clock, the model call and the possibility
of a write failure become explicit parameters; the filesystem becomes an
explicit state value threaded through the handler; Python exceptions
become `Except` values, with the handler's catch-all clause mapping every
raised message to an inline diagnostic result.
-/

namespace Whisper

/-- Constant `OUTPUT_DIR` from the source: the fixed output directory. -/
def OUTPUT_DIR : String := "Transcriptions"

/-- Constant `LANGUAGE` from the source: the fixed target-language code. -/
def LANGUAGE : String := "ta"

/-- Helper for `os.path.basename`: scan the characters, restarting the
accumulator at every path separator, so the result is the part after the
last separator. -/
def basenameAux : List Char → List Char → List Char
  | [], acc => acc.reverse
  | c :: rest, acc =>
      if c = '/' then basenameAux rest [] else basenameAux rest (c :: acc)

/-- Function `os.path.basename` (POSIX): the substring after the last
slash. -/
def basename (p : String) : String :=
  String.mk (basenameAux p.data [])

/-- The stem part of `os.path.splitext` on a string without separators:
split at the last dot, unless every character before that dot is itself a
dot (so names consisting only of leading dots keep their dots). -/
def splitextStem (cs : List Char) : List Char :=
  match cs.reverse.dropWhile (fun c => c ≠ '.') with
  | [] => cs
  | _ :: rest => if rest.all (fun c => c = '.') then cs else rest.reverse

/-- Expression `os.path.splitext(s)[0]` for a separator-free string. -/
def splitextStemStr (s : String) : String :=
  String.mk (splitextStem s.data)

/-- Does the string start with a slash (Python `b.startswith('/')`)? -/
def startsWithSlash (s : String) : Bool :=
  match s.data with
  | [] => false
  | c :: _ => c = '/'

/-- Does the string end with a slash (Python `path.endswith('/')`)? -/
def endsWithSlash (s : String) : Bool :=
  match s.data.getLast? with
  | none => false
  | some c => c = '/'

/-- Function `os.path.join` (POSIX) for two components. -/
def joinPath (a b : String) : String :=
  if startsWithSlash b then b
  else if a = "" then a ++ b
  else if endsWithSlash a then a ++ b
  else a ++ "/" ++ b

/-- The decimal digit character for `n % 10`. -/
def digitChar (n : Nat) : Char :=
  Char.ofNat (48 + n % 10)

/-- A Python `datetime.datetime` value: the wall-clock reading taken by
`datetime.datetime.now()`.  Python guarantees `1 <= year <= 9999`,
`1 <= month <= 12`, `1 <= day <= 31`, `hour <= 23`, `minute, second <= 59`;
the formatting below is faithful on that range. -/
structure PyDateTime where
  year : Nat
  month : Nat
  day : Nat
  hour : Nat
  minute : Nat
  second : Nat
deriving DecidableEq, Repr

/-- Expression `datetime.datetime.now().strftime("%Y%m%d_%H%M%S")`: each
field zero-padded to its width, fifteen characters in all. -/
def strftimeTimestamp (t : PyDateTime) : String :=
  String.mk
    [digitChar (t.year / 1000), digitChar (t.year / 100),
     digitChar (t.year / 10), digitChar t.year,
     digitChar (t.month / 10), digitChar t.month,
     digitChar (t.day / 10), digitChar t.day, '_',
     digitChar (t.hour / 10), digitChar t.hour,
     digitChar (t.minute / 10), digitChar t.minute,
     digitChar (t.second / 10), digitChar t.second]

/-- Does a string match the pattern YYYYMMDD_HHMMSS: fifteen characters,
an underscore in the middle, decimal digits everywhere else? -/
def isTimestampFormat (s : String) : Bool :=
  match s.data with
  | [y1, y2, y3, y4, m1, m2, d1, d2, u, h1, h2, n1, n2, s1, s2] =>
      u = '_' &&
      [y1, y2, y3, y4, m1, m2, d1, d2, h1, h2, n1, n2, s1, s2].all Char.isDigit
  | _ => false

/-- The output path built by `transcribe_audio` on success: base name of
the input path with the extension stripped, an underscore, the timestamp,
and the `.txt` suffix, joined onto the output directory. -/
def outputPath (audio_file_path : String) (now : PyDateTime) : String :=
  joinPath OUTPUT_DIR
    (splitextStemStr (basename audio_file_path) ++ "_" ++
      strftimeTimestamp now ++ ".txt")

/-- UTF-8 encoding of a string, as the list of bytes Python's text-mode
write with `encoding="utf-8"` produces on POSIX. -/
def utf8Encode (s : String) : List UInt8 :=
  s.toUTF8.toList

/-- The filesystem state the handler touches: the contents of each path,
and the file handles currently open. -/
structure FS where
  files : String → Option (List UInt8)
  openHandles : List String

/-- The body of `with open(p, "w", encoding="utf-8") as f: f.write(text)`.
Opening in mode `w` truncates the file and acquires a handle; the write
either succeeds or raises `writeErr`; leaving the `with` block closes the
handle in both cases, after which a raised error continues to propagate.
Returns the propagating error (if any) and the filesystem afterwards. -/
def scopedWrite (fs : FS) (p : String) (bytes : List UInt8)
    (writeErr : Option String) : Option String × FS :=
  let opened : FS :=
    { files := fun q => if q = p then some [] else fs.files q,
      openHandles := p :: fs.openHandles }
  match writeErr with
  | none =>
      (none,
       { files := fun q => if q = p then some bytes else opened.files q,
         openHandles := opened.openHandles.erase p })
  | some e =>
      (some e,
       { files := opened.files,
         openHandles := opened.openHandles.erase p })

/-- The fixed FFmpeg remediation hint from the source's diagnostic. -/
def ffmpegHint : String :=
  "Please ensure FFmpeg is installed and correctly configured in your system's PATH."

/-- The fixed CUDA/cuDNN remediation hint from the source's diagnostic. -/
def cudaHint : String :=
  "If using GPU, check your CUDA/cuDNN installation and PyTorch's CUDA availability."

/-- The diagnostic string the handler's `except` clause builds from a
raised error's text. -/
def errorMessage (e : String) : String :=
  "An error occurred during transcription: " ++ e ++ "\n\n" ++
    ffmpegHint ++ "\n" ++ cudaHint

/-- The literal prompt returned when no file is uploaded. -/
def uploadPrompt : String := "Please upload an audio file."

/-- The `try` block of `transcribe_audio`: run the model (`adapter` is the
text `model.transcribe(...)["text"]` returns, or the message of the error
it raises), build the timestamped output path, and perform the scoped
write (which may itself raise `writeErr`).  Returns the raised message or
the (text, output path) pair, together with the filesystem afterwards. -/
def transcribeTryBlock (adapter : Except String String)
    (writeErr : Option String) (now : PyDateTime) (fs : FS)
    (audio_file_path : String) : Except String (String × String) × FS :=
  match adapter with
  | .error e => (.error e, fs)
  | .ok transcribed_text =>
      let output_txt_path := outputPath audio_file_path now
      match scopedWrite fs output_txt_path (utf8Encode transcribed_text)
          writeErr with
      | (none, fs') => (.ok (transcribed_text, output_txt_path), fs')
      | (some e, fs') => (.error e, fs')

/-- Function `transcribe_audio` from `src/Whisper.py`.  The outer `Except` is the
exception channel to the caller: a `.error` would mean an exception
propagated out of the handler.  The handler first checks for a missing
upload, then runs the `try` block, and its `except Exception` clause turns
every raised message into the inline diagnostic result. -/
def transcribe_audio (adapter : Except String String)
    (writeErr : Option String) (now : PyDateTime) (fs : FS)
    (audio_file_path : Option String) :
    Except String ((String × Option String) × FS) :=
  match audio_file_path with
  | none => .ok ((uploadPrompt, none), fs)
  | some path =>
      match transcribeTryBlock adapter writeErr now fs path with
      | (.ok (text, p), fs') => .ok ((text, some p), fs')
      | (.error e, fs') => .ok ((errorMessage e, none), fs')

/-- Format a duration of `n` seconds as HH:MM:SS, each field zero-padded
to two digits. -/
def formatHMS (n : Nat) : String :=
  String.mk
    [digitChar (n / 3600 / 10), digitChar (n / 3600), ':',
     digitChar (n % 3600 / 60 / 10), digitChar (n % 3600 / 60), ':',
     digitChar (n % 60 / 10), digitChar (n % 60)]

/-- Does a string match the pattern HH:MM:SS: eight characters, colons at
the third and sixth positions, decimal digits elsewhere? -/
def isHMSFormat (s : String) : Bool :=
  match s.data with
  | [h1, h2, c1, m1, m2, c2, s1, s2] =>
      c1 = ':' && c2 = ':' && [h1, h2, m1, m2, s1, s2].all Char.isDigit
  | _ => false

/-- Modelled from the spec: the timing-variant request handler (the second
near-duplicate copy of the script described by the spec, not present under
`src/`).  Per the spec it records a start timestamp before invoking the
adapter, computes the elapsed wall-clock duration on success, formats it
as HH:MM:SS, and returns the three-part (text, output path, formatted
duration) result; the missing-upload and failure paths return no file and
an empty timing value.  `startSec`/`endSec` are the wall-clock second
readings around the transcription. -/
def transcribe_audio_timed (adapter : Except String String)
    (writeErr : Option String) (startSec endSec : Nat) (now : PyDateTime)
    (fs : FS) (audio_file_path : Option String) :
    Except String ((String × Option String × String) × FS) :=
  match audio_file_path with
  | none => .ok ((uploadPrompt, none, ""), fs)
  | some path =>
      match transcribeTryBlock adapter writeErr now fs path with
      | (.ok (text, p), fs') =>
          .ok ((text, some p, formatHMS (endSec - startSec)), fs')
      | (.error e, fs') => .ok ((errorMessage e, none, ""), fs')

/-- The empty filesystem: no files, no open handles. -/
def fsEmpty : FS :=
  { files := fun _ => none, openHandles := [] }

/-! ### Helper lemmas -/

theorem digitChar_isDigit (n : Nat) : (digitChar n).isDigit = true := by
  unfold digitChar
  have h : n % 10 < 10 := Nat.mod_lt _ (by norm_num)
  set k := n % 10 with hk
  clear_value k
  interval_cases k <;> decide

theorem digitChar_ne_slash (n : Nat) : digitChar n ≠ '/' := by
  intro h
  have hd := digitChar_isDigit n
  rw [h] at hd
  exact absurd hd (by decide)

theorem basenameAux_no_slash (cs : List Char) :
    ∀ acc, (∀ c ∈ acc, c ≠ '/') → ∀ c ∈ basenameAux cs acc, c ≠ '/' := by
  induction cs with
  | nil =>
      intro acc hacc c hc
      simp only [basenameAux, List.mem_reverse] at hc
      exact hacc c hc
  | cons d rest ih =>
      intro acc hacc c hc
      simp only [basenameAux] at hc
      by_cases hd : d = '/'
      · rw [if_pos hd] at hc
        exact ih [] (by intro x hx; cases hx) c hc
      · rw [if_neg hd] at hc
        refine ih (d :: acc) ?_ c hc
        intro x hx
        rcases List.mem_cons.mp hx with h | h
        · exact h ▸ hd
        · exact hacc x h

theorem basename_no_slash (p : String) : ∀ c ∈ (basename p).data, c ≠ '/' :=
  basenameAux_no_slash p.data [] (by intro x hx; cases hx)

theorem splitextStem_subset (cs : List Char) : ∀ c ∈ splitextStem cs, c ∈ cs := by
  intro c hc
  unfold splitextStem at hc
  split at hc
  · exact hc
  · next d rest heq =>
      split at hc
      · exact hc
      · rw [List.mem_reverse] at hc
        have h1 : c ∈ d :: rest := List.mem_cons_of_mem d hc
        have h2 : c ∈ cs.reverse := by
          rw [← heq] at h1
          exact (List.dropWhile_sublist _).subset h1
        exact List.mem_reverse.mp h2

theorem strftime_no_slash (t : PyDateTime) :
    ∀ c ∈ (strftimeTimestamp t).data, c ≠ '/' := by
  intro c hc
  simp only [strftimeTimestamp, List.mem_cons, List.not_mem_nil, or_false] at hc
  rcases hc with rfl | rfl | rfl | rfl | rfl | rfl | rfl | rfl | rfl | rfl | rfl
    | rfl | rfl | rfl | rfl <;>
    first
      | exact digitChar_ne_slash _
      | decide

theorem startsWithSlash_eq_false (b : String) (hb : ∀ c ∈ b.data, c ≠ '/') :
    startsWithSlash b = false := by
  unfold startsWithSlash
  split
  · rfl
  · next c rest hd =>
      have : c ∈ b.data := by rw [hd]; exact List.mem_cons_self c rest
      exact decide_eq_false (hb c this)

theorem joinPath_no_slash (b : String) (hb : ∀ c ∈ b.data, c ≠ '/') :
    joinPath OUTPUT_DIR b = OUTPUT_DIR ++ "/" ++ b := by
  unfold joinPath
  rw [startsWithSlash_eq_false b hb]
  norm_num [OUTPUT_DIR, endsWithSlash]
  rw [if_neg (show ¬ ("Transcriptions" : String) = "" by decide),
    if_neg (show ¬ ('s' = '/') by decide)]

theorem outputFilename_no_slash (p : String) (now : PyDateTime) :
    ∀ c ∈ (splitextStemStr (basename p) ++ "_" ++ strftimeTimestamp now ++
        ".txt").data, c ≠ '/' := by
  intro c hc
  simp only [String.data_append, List.mem_append] at hc
  rcases hc with ((h | h) | h) | h
  · have h2 : c ∈ (basename p).data := splitextStem_subset _ c h
    exact basename_no_slash p c h2
  · simp only [show ("_" : String).data = ['_'] from rfl, List.mem_cons,
      List.not_mem_nil, or_false] at h
    subst h; decide
  · exact strftime_no_slash now c h
  · simp only [show (".txt" : String).data = ['.', 't', 'x', 't'] from rfl,
      List.mem_cons, List.not_mem_nil, or_false] at h
    rcases h with rfl | rfl | rfl | rfl <;> decide

theorem outputPath_eq (p : String) (now : PyDateTime) :
    outputPath p now =
      OUTPUT_DIR ++ "/" ++
        (splitextStemStr (basename p) ++ "_" ++ strftimeTimestamp now ++
          ".txt") := by
  unfold outputPath
  exact joinPath_no_slash _ (outputFilename_no_slash p now)

theorem isTimestampFormat_strftime (t : PyDateTime) :
    isTimestampFormat (strftimeTimestamp t) = true := by
  simp [isTimestampFormat, strftimeTimestamp, digitChar_isDigit]

theorem isHMSFormat_formatHMS (n : Nat) : isHMSFormat (formatHMS n) = true := by
  simp [isHMSFormat, formatHMS, digitChar_isDigit]

theorem outputPath_ne_of_ts_ne (b1 b2 : String) (ts1 ts2 : PyDateTime)
    (hbase : b1 = b2)
    (hts : strftimeTimestamp ts1 ≠ strftimeTimestamp ts2) :
    OUTPUT_DIR ++ "/" ++ (b1 ++ "_" ++ strftimeTimestamp ts1 ++ ".txt") ≠
      OUTPUT_DIR ++ "/" ++ (b2 ++ "_" ++ strftimeTimestamp ts2 ++ ".txt") := by
  subst hbase
  intro h
  apply hts
  apply String.ext
  have hd := congrArg String.data h
  simp only [String.data_append, List.append_assoc] at hd
  have h1 := List.append_cancel_left hd
  have h2 := List.append_cancel_left h1
  have h3 := List.append_cancel_left h2
  have h4 := List.append_cancel_left h3
  exact List.append_cancel_right h4

theorem scopedWrite_files_self (fs : FS) (p : String)
    (bytes : List UInt8) :
    ((scopedWrite fs p bytes none).2).files p = some bytes := by
  show (if p = p then some bytes else _) = some bytes
  rw [if_pos rfl]

theorem scopedWrite_files_other (fs : FS) (p q : String)
    (bytes : List UInt8) (h : q ≠ p) :
    ((scopedWrite fs p bytes none).2).files q = fs.files q := by
  show (if q = p then some bytes else if q = p then some [] else fs.files q) =
    fs.files q
  rw [if_neg h, if_neg h]

/-! ### Claim theorems -/

/-- Claim C1: for every successfully transcribed audio input (the model
returns text and the write raises nothing), the output file path returned
by `transcribe_audio` equals `Transcriptions/`, then the uploaded file's
base name with its extension removed, an underscore, the wall-clock
timestamp, and `.txt`; and the timestamp matches the pattern
YYYYMMDD_HHMMSS. -/
theorem claim_C1_output_path (t path : String) (now : PyDateTime) (fs : FS) :
    (∃ fs', transcribe_audio (.ok t) none now fs (some path) =
      .ok ((t, some ("Transcriptions" ++ "/" ++
        (splitextStemStr (basename path) ++ "_" ++ strftimeTimestamp now ++
          ".txt"))), fs')) ∧
    isTimestampFormat (strftimeTimestamp now) = true := by
  constructor
  · refine ⟨(scopedWrite fs (outputPath path now) (utf8Encode t) none).2, ?_⟩
    show transcribe_audio (.ok t) none now fs (some path) =
      .ok ((t, some (OUTPUT_DIR ++ "/" ++
        (splitextStemStr (basename path) ++ "_" ++ strftimeTimestamp now ++
          ".txt"))), (scopedWrite fs (outputPath path now) (utf8Encode t)
            none).2)
    rw [← outputPath_eq]
    rfl
  · exact isTimestampFormat_strftime now

/-- Claim C2: for every successful request, the bytes stored at the
returned output path in the post-state are exactly the UTF-8 encoding of
the transcribed-text string returned as the first component. -/
theorem claim_C2_written_bytes (t path : String) (now : PyDateTime)
    (fs : FS) :
    ∃ p fs', transcribe_audio (.ok t) none now fs (some path) =
        .ok ((t, some p), fs') ∧
      fs'.files p = some (utf8Encode t) := by
  refine ⟨outputPath path now, _, rfl, ?_⟩
  show (if outputPath path now = outputPath path now then
      some (utf8Encode t) else _) = some (utf8Encode t)
  rw [if_pos rfl]

/-- Claim C3: for every call with no input file reference, the handler
returns the literal prompt string and no output file path, whatever the
model, the write outcome and the clock would have been. -/
theorem claim_C3_no_file_prompt (adapter : Except String String)
    (writeErr : Option String) (now : PyDateTime) (fs : FS) :
    transcribe_audio adapter writeErr now fs none =
      .ok (("Please upload an audio file.", none), fs) := rfl

/-- Claim C6: for every input and every outcome of the model call and of
the file write, `transcribe_audio` returns normally (`.ok` on the
exception channel to its caller): every failure after the presence check
is caught and rendered as an inline text result. -/
theorem claim_C6_never_raises (adapter : Except String String)
    (writeErr : Option String) (now : PyDateTime) (fs : FS)
    (audio_file_path : Option String) :
    ∃ v, transcribe_audio adapter writeErr now fs audio_file_path =
      .ok v := by
  cases audio_file_path with
  | none => exact ⟨_, rfl⟩
  | some path =>
      cases adapter with
      | error e => exact ⟨_, rfl⟩
      | ok t =>
          cases writeErr with
          | none => exact ⟨_, rfl⟩
          | some e => exact ⟨_, rfl⟩

/-- Claim C8: the scoped write releases the file handle it opened whether
the write succeeds or raises: the set of open handles after the `with`
block equals the set before it, in both outcomes. -/
theorem claim_C8_handle_released (fs : FS) (p : String)
    (bytes : List UInt8) (writeErr : Option String) :
    ((scopedWrite fs p bytes writeErr).2).openHandles = fs.openHandles := by
  cases writeErr with
  | none => exact List.erase_cons_head p fs.openHandles
  | some e => exact List.erase_cons_head p fs.openHandles

/-- Claim C10: called with no file, the handler returns before invoking
the model and before any file operation: the filesystem in the result is
the input filesystem unchanged, and the result does not depend on the
model's behaviour, the write's behaviour or the clock. -/
theorem claim_C10_none_no_effect (adapter adapter' : Except String String)
    (writeErr writeErr' : Option String) (now now' : PyDateTime) (fs : FS) :
    transcribe_audio adapter writeErr now fs none =
        .ok (("Please upload an audio file.", none), fs) ∧
      transcribe_audio adapter writeErr now fs none =
        transcribe_audio adapter' writeErr' now' fs none :=
  ⟨rfl, rfl⟩

/-- Claim C4: whenever the model call raises a message `e`, or the write
step after it raises `e`, the handler returns the diagnostic text and no
output file path; and the diagnostic text contains the raised message,
the FFmpeg-on-PATH hint and the CUDA/cuDNN hint as substrings. -/
theorem claim_C4_failure_diagnostic (e t path : String)
    (writeErr : Option String) (now : PyDateTime) (fs : FS) :
    transcribe_audio (.error e) writeErr now fs (some path) =
        .ok ((errorMessage e, none), fs) ∧
      (∃ fs', transcribe_audio (.ok t) (some e) now fs (some path) =
        .ok ((errorMessage e, none), fs')) ∧
      List.IsInfix e.data (errorMessage e).data ∧
      List.IsInfix ffmpegHint.data (errorMessage e).data ∧
      List.IsInfix cudaHint.data (errorMessage e).data := by
  refine ⟨rfl, ⟨_, rfl⟩, ?_, ?_, ?_⟩
  · refine ⟨("An error occurred during transcription: " : String).data,
      ("\n\n" ++ ffmpegHint ++ "\n" ++ cudaHint : String).data, ?_⟩
    simp [errorMessage, String.data_append]
  · refine ⟨("An error occurred during transcription: " ++ e ++
        "\n\n" : String).data, ("\n" ++ cudaHint : String).data, ?_⟩
    simp [errorMessage, String.data_append]
  · refine ⟨("An error occurred during transcription: " ++ e ++ "\n\n" ++
        ffmpegHint ++ "\n" : String).data, [], ?_⟩
    simp [errorMessage, String.data_append]

/-- Claim C5: in the timing variant of the handler (modelled from the
spec, see `transcribe_audio_timed`), a successful transcription returns
the three-part result of transcribed text, output path, and the elapsed
wall-clock duration formatted as HH:MM:SS; the formatted duration matches
the HH:MM:SS pattern, and a two-second elapsed duration formats as
00:00:02. -/
theorem claim_C5_timed_result (t path : String) (startSec endSec : Nat)
    (now : PyDateTime) (fs : FS) :
    (∃ p fs', transcribe_audio_timed (.ok t) none startSec endSec now fs
        (some path) =
      .ok ((t, some p, formatHMS (endSec - startSec)), fs')) ∧
    isHMSFormat (formatHMS (endSec - startSec)) = true ∧
    formatHMS 2 = "00:00:02" := by
  refine ⟨⟨outputPath path now, _, rfl⟩, isHMSFormat_formatHMS _, ?_⟩
  decide

/-- Claim C7: no existing-file check is performed.  For two successful
requests whose inputs share a base name, run one after the other: if the
two wall-clock timestamps format identically, the two output paths
coincide and the second write silently overwrites the first file's
contents; if the timestamps differ, the two output paths are distinct and
both files hold their own contents afterwards. -/
theorem claim_C7_timestamp_collision (t1 t2 path1 path2 : String)
    (now1 now2 : PyDateTime) (fs : FS)
    (hbase : splitextStemStr (basename path1) =
      splitextStemStr (basename path2)) :
    ∃ fs1 fs2,
      transcribe_audio (.ok t1) none now1 fs (some path1) =
          .ok ((t1, some (outputPath path1 now1)), fs1) ∧
        transcribe_audio (.ok t2) none now2 fs1 (some path2) =
          .ok ((t2, some (outputPath path2 now2)), fs2) ∧
        (strftimeTimestamp now1 = strftimeTimestamp now2 →
          outputPath path1 now1 = outputPath path2 now2 ∧
            fs2.files (outputPath path1 now1) = some (utf8Encode t2)) ∧
        (strftimeTimestamp now1 ≠ strftimeTimestamp now2 →
          outputPath path1 now1 ≠ outputPath path2 now2 ∧
            fs2.files (outputPath path1 now1) = some (utf8Encode t1) ∧
            fs2.files (outputPath path2 now2) = some (utf8Encode t2)) := by
  refine ⟨(scopedWrite fs (outputPath path1 now1) (utf8Encode t1) none).2,
    (scopedWrite (scopedWrite fs (outputPath path1 now1) (utf8Encode t1)
        none).2 (outputPath path2 now2) (utf8Encode t2) none).2,
    rfl, rfl, ?_, ?_⟩
  · intro hts
    have hp : outputPath path1 now1 = outputPath path2 now2 := by
      rw [outputPath_eq path1 now1, outputPath_eq path2 now2, hbase, hts]
    refine ⟨hp, ?_⟩
    rw [hp]
    exact scopedWrite_files_self _ _ _
  · intro hts
    have hp : outputPath path1 now1 ≠ outputPath path2 now2 := by
      rw [outputPath_eq path1 now1, outputPath_eq path2 now2]
      exact outputPath_ne_of_ts_ne _ _ now1 now2 hbase hts
    refine ⟨hp, ?_, scopedWrite_files_self _ _ _⟩
    rw [scopedWrite_files_other _ _ _ _ hp]
    exact scopedWrite_files_self _ _ _

/-- Witness for claim C7 at concrete inputs: the files a.mp3 and
dir/a.wav share the base name a, and two calls one wall-clock second
apart produce the stated outcomes. -/
theorem claim_C7_timestamp_collision_witness :
    splitextStemStr (basename "a.mp3") =
        splitextStemStr (basename "dir/a.wav") ∧
      (∃ fs1 fs2,
        transcribe_audio (.ok "x") none ⟨2024, 1, 2, 3, 4, 5⟩ fsEmpty
            (some "a.mp3") =
          .ok (("x", some (outputPath "a.mp3" ⟨2024, 1, 2, 3, 4, 5⟩)),
            fs1) ∧
        transcribe_audio (.ok "y") none ⟨2024, 1, 2, 3, 4, 6⟩ fs1
            (some "dir/a.wav") =
          .ok (("y", some (outputPath "dir/a.wav" ⟨2024, 1, 2, 3, 4, 6⟩)),
            fs2) ∧
        (strftimeTimestamp ⟨2024, 1, 2, 3, 4, 5⟩ =
            strftimeTimestamp ⟨2024, 1, 2, 3, 4, 6⟩ →
          outputPath "a.mp3" ⟨2024, 1, 2, 3, 4, 5⟩ =
              outputPath "dir/a.wav" ⟨2024, 1, 2, 3, 4, 6⟩ ∧
            fs2.files (outputPath "a.mp3" ⟨2024, 1, 2, 3, 4, 5⟩) =
              some (utf8Encode "y")) ∧
        (strftimeTimestamp ⟨2024, 1, 2, 3, 4, 5⟩ ≠
            strftimeTimestamp ⟨2024, 1, 2, 3, 4, 6⟩ →
          outputPath "a.mp3" ⟨2024, 1, 2, 3, 4, 5⟩ ≠
              outputPath "dir/a.wav" ⟨2024, 1, 2, 3, 4, 6⟩ ∧
            fs2.files (outputPath "a.mp3" ⟨2024, 1, 2, 3, 4, 5⟩) =
              some (utf8Encode "x") ∧
            fs2.files (outputPath "dir/a.wav" ⟨2024, 1, 2, 3, 4, 6⟩) =
              some (utf8Encode "y"))) :=
  ⟨by decide,
    claim_C7_timestamp_collision "x" "y" "a.mp3" "dir/a.wav"
      ⟨2024, 1, 2, 3, 4, 5⟩ ⟨2024, 1, 2, 3, 4, 6⟩ fsEmpty (by decide)⟩

/-- Claim C9: for every input path, including paths with directory
components or dot-dot segments, the constructed output path is the fixed
output directory followed by a single separator and a name containing no
separator at all: it lies inside `Transcriptions`. -/
theorem claim_C9_path_confinement (path : String) (now : PyDateTime) :
    ∃ name : String, outputPath path now = "Transcriptions" ++ "/" ++ name ∧
      ∀ c ∈ name.data, c ≠ '/' :=
  ⟨_, outputPath_eq path now, outputFilename_no_slash path now⟩

end Whisper
